import Mathlib

/-!
Verification of the table-extraction engine of WS_INS_AZURE_PROJECTS.

The repository contains several Python realizations of one spreadsheet
table-extraction engine:

* `excel_extractor/Updated.py` — `detect_table_from_rows` (also reached from
  `detect_table_in_worksheet` there), header/end detection plus positional
  materialization of headers and data rows;
* `excel_extractor/function_app.py` — `detect_table_in_worksheet`, a sibling
  realization with explicit `None` handling;
* `excel_extractor/event_trigger/table_extractor.py` — the
  `ExcelTableExtractor` class: `find_table_boundaries`, `extract_table_data`,
  `add_group_column`, `extract_group_id`, `process_excel_content`.

This file gives a shallow embedding of those functions and proves or refutes
the frozen claims about them.  Cells are modelled as the tagged union over
absent / text / integer / boolean values; Python `str(cell)` and Python
truthiness are modelled explicitly, because the realizations disagree exactly
on those points (`str(None) = "None"` is non-empty after stripping, `0` and
`""` are falsy, and so on).

Threshold comparisons such as `non_empty >= 0.8 * num_cols` are embedded as
the exact rational comparisons `5 * non_empty >= 4 * num_cols`
(and `non_empty / cols < 0.3` as `10 * non_empty < 3 * cols`).  For the cell
counts and column counts that can occur here these agree with the IEEE double
comparisons performed by Python: the fraction 4/5 (resp. 3/10) differs from
its double rounding by less than one part in 2^52, far below the 1/(5·cols)
granularity of the compared quantities.

Python in-place list mutation (`add_group_column`, `transform_dataframe`) is
modelled by explicit state passing: the embedded function returns the new
contents of the mutated object, which — because the Python function returns
the very object it mutates — is simultaneously the returned value and the
post-call contents of the caller argument.
-/

/-- A spreadsheet cell: the type-erased value model of the spec, section 3.
`absent` is Python `None`. -/
inductive Cell where
  | absent : Cell
  | text : String → Cell
  | num : Int → Cell
  | boolean : Bool → Cell
deriving DecidableEq

/-- Python `str(cell)`: `str(None) = "None"`, `str(True) = "True"`,
`str(False) = "False"`, integers print in decimal. -/
def Cell.pyStr : Cell → String
  | Cell.absent => "None"
  | Cell.text s => s
  | Cell.num n => toString n
  | Cell.boolean b => if b then "True" else "False"

/-- Python truthiness of a cell value: `None`, `""`, `0` and `False` are
falsy, everything else truthy. -/
def Cell.truthy : Cell → Bool
  | Cell.absent => false
  | Cell.text s => decide (s ≠ "")
  | Cell.num n => decide (n ≠ 0)
  | Cell.boolean b => b

/-- Drop leading whitespace characters from a character list. -/
def dropLeadingSpaces : List Char → List Char
  | [] => []
  | c :: cs => if c.isWhitespace then dropLeadingSpaces cs else c :: cs

/-- Python `str.strip()`: remove leading and trailing whitespace. -/
def pyStrip (s : String) : String :=
  String.mk (dropLeadingSpaces (dropLeadingSpaces s.data.reverse).reverse)

/-- Python `s.split(sep)` for a single-character separator, as a structural
recursion over the character list (auxiliary accumulator form). -/
def pySplitAux (sep : Char) : List Char → List Char → List String
  | [], acc => [String.mk acc.reverse]
  | c :: cs, acc =>
    if c = sep then String.mk acc.reverse :: pySplitAux sep cs []
    else pySplitAux sep cs (c :: acc)

/-- Python `s.split(sep)` for a single-character separator. -/
def pySplit (s : String) (sep : Char) : List String :=
  pySplitAux sep s.data []

/-- Embedding of `ExcelTableExtractor.extract_group_id`
(`event_trigger/table_extractor.py`, lines 21-42): split the blob name on
underscores; with at least two parts return the part at index 1, otherwise
return the empty string.  The `try`/`except` wrapper in the source is dead
(no statement in the body can raise), so the embedding is total. -/
def extract_group_id (blob_name : String) : String :=
  let parts := pySplit blob_name '_'
  if 2 ≤ parts.length then parts.getD 1 "" else ""

example : pySplit "report_TEAM7_2024.xlsx" '_' = ["report", "TEAM7", "2024.xlsx"] := by decide
example : pyStrip "  a b " = "a b" := by decide
example : pyStrip " " = "" := by decide
example : Cell.pyStr Cell.absent = "None" := by decide
example : Cell.pyStr (Cell.num 0) = "0" := by decide

/-- Cell emptiness test of `Updated.py detect_table_from_rows` (line 119,
complemented at line 129): a cell counts as non-empty when
`str(cell).strip() != ""`.  Note that `str(None).strip() = "None"` is
non-empty under this test. -/
def pyCellNonEmptyU (c : Cell) : Bool := decide (pyStrip c.pyStr ≠ "")

/-- Cell emptiness test of `Updated.py detect_table_from_rows` line 129:
`str(cell).strip() == ""`. -/
def pyCellEmptyU (c : Cell) : Bool := decide (pyStrip c.pyStr = "")

/-- Cell non-emptiness test of `function_app.py detect_table_in_worksheet`
line 93 and of `table_extractor.py find_table_boundaries` lines 84 and 99:
`cell is not None and str(cell).strip() != ""`. -/
def pyCellNonEmptyF (c : Cell) : Bool :=
  match c with
  | Cell.absent => false
  | c => decide (pyStrip c.pyStr ≠ "")

/-- Cell emptiness test of `function_app.py detect_table_in_worksheet`
line 105: `cell is None or str(cell).strip() == ""`. -/
def pyCellEmptyF (c : Cell) : Bool :=
  match c with
  | Cell.absent => true
  | c => decide (pyStrip c.pyStr = "")

/-- The per-row comprehension `sum(1 for cell in row if str(cell).strip() != "")`. -/
def countNonEmptyU (row : List Cell) : Nat := (row.filter pyCellNonEmptyU).length

/-- The per-row comprehension `sum(1 for cell in row if str(cell).strip() == "")`. -/
def countEmptyU (row : List Cell) : Nat := (row.filter pyCellEmptyU).length

/-- The per-row comprehension counting cells that are not `None` and strip to
a non-empty string. -/
def countNonEmptyF (row : List Cell) : Nat := (row.filter pyCellNonEmptyF).length

/-- The per-row comprehension counting cells that are `None` or strip to the
empty string. -/
def countEmptyF (row : List Cell) : Nat := (row.filter pyCellEmptyF).length

/-- The common Python scan pattern `for i, x in enumerate(xs): if p(x): return i`
with the enumeration starting at index `s`: index of the first element
satisfying `p`, or `none`. -/
def findIdxFrom {α : Type} (p : α → Bool) : List α → Nat → Option Nat
  | [], _ => none
  | a :: as, s => if p a then some s else findIdxFrom p as (s + 1)

/-- A Python list comprehension whose body may raise (here: out-of-range
indexing): collects all results, or fails at the first raising element. -/
def mapMOpt {α β : Type} (f : α → Option β) : List α → Option (List β)
  | [] => some []
  | a :: as =>
    match f a, mapMOpt f as with
    | some b, some bs => some (b :: bs)
    | _, _ => none

/-- A detected table: header strings plus data rows, the `{"headers": ...,
"data": ...}` dictionary returned by the detection functions. -/
structure Table where
  headers : List String
  data : List (List Cell)
deriving DecidableEq

/-- Result of a detection function: a table, the empty dictionary `{}`
(NotFound), or a raised `IndexError` from out-of-range row indexing. -/
inductive DetectResult where
  | table : Table → DetectResult
  | notFound : DetectResult
  | indexError : DetectResult
deriving DecidableEq

/-- Header cell rendering of `Updated.py` line 138:
`str(cell) if cell else f"Column_{col_idx + 1}"` — the cell is replaced by
the synthetic label exactly when it is Python-falsy, and is stringified
without stripping otherwise.  `i` is the 0-based column index. -/
def headerCellU (i : Nat) (c : Cell) : String :=
  if c.truthy then c.pyStr else "Column_" ++ toString (i + 1)

/-- Header cell rendering of `function_app.py` line 117:
`str(header) if header is not None else f"Column_{col_idx + 1}"` — the cell
is replaced by the synthetic label exactly when it is `None`. -/
def headerCellF (i : Nat) (c : Cell) : String :=
  match c with
  | Cell.absent => "Column_" ++ toString (i + 1)
  | c => c.pyStr

/-- The header comprehension of `Updated.py` lines 137-140: render
`rows[header_row][col_idx]` for `col_idx in range(num_cols)`; fails when the
header row is shorter than `num_cols` (Python `IndexError`). -/
def buildHeadersU (row : List Cell) (num_cols : Nat) : Option (List String) :=
  mapMOpt (fun i => (row.get? i).map (headerCellU i)) (List.range num_cols)

/-- The header loop of `function_app.py` lines 114-117, same shape with the
`None`-only replacement rule. -/
def buildHeadersF (row : List Cell) (num_cols : Nat) : Option (List String) :=
  mapMOpt (fun i => (row.get? i).map (headerCellF i)) (List.range num_cols)

/-- One data row of the extraction comprehensions (`Updated.py` line 144,
`function_app.py` lines 121-123): `rows[row_idx][col_idx]` for
`col_idx in range(num_cols)`; fails when the row is shorter than
`num_cols`. -/
def buildDataRow (row : List Cell) (num_cols : Nat) : Option (List Cell) :=
  mapMOpt (fun i => row.get? i) (List.range num_cols)

/-- The data extraction of `Updated.py` lines 143-146 and `function_app.py`
lines 119-124: all grid rows with index in `range(header_row + 1, end_row + 1)`,
each read positionally across `range(num_cols)`. -/
def buildData (rows : List (List Cell)) (num_cols header_row end_row : Nat) :
    Option (List (List Cell)) :=
  mapMOpt (fun ri => buildDataRow (rows.getD ri []) num_cols)
    (List.range' (header_row + 1) (end_row - header_row))

/-- The header scan of `Updated.py` lines 117-122: first row index whose
non-empty count (Updated emptiness test) reaches `0.8 * num_cols`. -/
def findHeaderRowU (rows : List (List Cell)) (num_cols : Nat) : Option Nat :=
  findIdxFrom (fun row => decide (4 * num_cols ≤ 5 * countNonEmptyU row)) rows 0

/-- The end scan of `Updated.py` lines 127-132: `end_row` starts at
`len(rows) - 1`; the scan over `range(header_row + 1, len(rows))` resets it
to `row_idx - 1` at the first row whose empty count reaches
`0.8 * num_cols`. -/
def findEndRowU (rows : List (List Cell)) (num_cols header_row : Nat) : Nat :=
  match findIdxFrom (fun row => decide (4 * num_cols ≤ 5 * countEmptyU row))
      (rows.drop (header_row + 1)) (header_row + 1) with
  | some i => i - 1
  | none => rows.length - 1

/-- The header scan of `function_app.py` lines 91-96 (emptiness test with the
explicit `None` check). -/
def findHeaderRowF (rows : List (List Cell)) (num_cols : Nat) : Option Nat :=
  findIdxFrom (fun row => decide (4 * num_cols ≤ 5 * countNonEmptyF row)) rows 0

/-- The end scan of `function_app.py` lines 102-108. -/
def findEndRowF (rows : List (List Cell)) (num_cols header_row : Nat) : Nat :=
  match findIdxFrom (fun row => decide (4 * num_cols ≤ 5 * countEmptyF row))
      (rows.drop (header_row + 1)) (header_row + 1) with
  | some i => i - 1
  | none => rows.length - 1

/-- Embedding of `detect_table_from_rows` (`Updated.py`, lines 107-148).
Guards: empty row list and zero first-row length return `{}`; a located
header with a non-strictly-greater end boundary returns `{}`; the header and
data comprehensions index rows positionally and raise on rows shorter than
`num_cols`. -/
def detect_table_from_rows (rows : List (List Cell)) : DetectResult :=
  match rows with
  | [] => DetectResult.notFound
  | r0 :: _ =>
    let num_cols := r0.length
    if num_cols = 0 then DetectResult.notFound else
    match findHeaderRowU rows num_cols with
    | none => DetectResult.notFound
    | some header_row =>
      let end_row := findEndRowU rows num_cols header_row
      if end_row ≤ header_row then DetectResult.notFound else
      match buildHeadersU (rows.getD header_row []) num_cols with
      | none => DetectResult.indexError
      | some headers =>
        match buildData rows num_cols header_row end_row with
        | none => DetectResult.indexError
        | some data => DetectResult.table ⟨headers, data⟩

/-- Embedding of `detect_table_in_worksheet` (`function_app.py`, lines
76-126), applied to the row list produced by `worksheet.iter_rows`
(the argument of this embedding). -/
def detect_table_in_worksheet (rows : List (List Cell)) : DetectResult :=
  match rows with
  | [] => DetectResult.notFound
  | r0 :: _ =>
    let num_cols := r0.length
    if num_cols = 0 then DetectResult.notFound else
    match findHeaderRowF rows num_cols with
    | none => DetectResult.notFound
    | some header_row =>
      let end_row := findEndRowF rows num_cols header_row
      if end_row ≤ header_row then DetectResult.notFound else
      match buildHeadersF (rows.getD header_row []) num_cols with
      | none => DetectResult.indexError
      | some headers =>
        match buildData rows num_cols header_row end_row with
        | none => DetectResult.indexError
        | some data => DetectResult.table ⟨headers, data⟩

/-- The end-to-end grid of the spec, section 8, last-but-two bullet. -/
def gridScenario : List (List Cell) :=
  [[Cell.text "", Cell.text "", Cell.text ""],
   [Cell.text "ID", Cell.text "Name", Cell.text "Qty"],
   [Cell.text "1", Cell.text "A", Cell.text "5"],
   [Cell.text "2", Cell.text "B", Cell.text "3"],
   [Cell.text "", Cell.text "", Cell.text ""],
   [Cell.text "x", Cell.text "y", Cell.text "z"]]

example :
    detect_table_in_worksheet [[Cell.absent], [Cell.text "x"]] =
      DetectResult.notFound := by decide

/-- The column count of `find_table_boundaries`
(`event_trigger/table_extractor.py`, line 72): `max(len(row) for row in data)`
— the maximum row length, not the first-row length.  The source evaluates it
only on non-empty `data`, where this fold agrees with Python `max`. -/
def maxRowLen : List (List Cell) → Nat
  | [] => 0
  | r :: rest => max r.length (maxRowLen rest)

/-- Row padding of `find_table_boundaries` lines 81-82 and 96-97:
`row + [None] * (cols - len(row))` when the row is shorter than `cols`. -/
def padRow (row : List Cell) (cols : Nat) : List Cell :=
  if row.length < cols then row ++ List.replicate (cols - row.length) Cell.absent else row

/-- The guarded cell probe of `find_table_boundaries` lines 116-119 and
129-133: `row < len(data) and col < len(data[row]) and data[row][col] is not
None and str(data[row][col]).strip() != ""`. -/
def cellHasData (data : List (List Cell)) (r c : Nat) : Bool :=
  decide (r < data.length) && decide (c < (data.getD r []).length) &&
    pyCellNonEmptyF ((data.getD r []).getD c Cell.absent)

/-- Column probe of the trimming loops of `find_table_boundaries`: does
column `col` hold data in any row of `range(header_row, table_end + 1)`. -/
def colHasData (data : List (List Cell)) (header_row table_end col : Nat) : Bool :=
  (List.range' header_row (table_end + 1 - header_row)).any
    (fun r => cellHasData data r col)

/-- Left trimming loop of `find_table_boundaries` lines 112-124: first column
with data; `start_col` keeps its initial value 0 when no column has data. -/
def findStartCol (data : List (List Cell)) (cols header_row table_end : Nat) : Nat :=
  ((List.range cols).find? (fun c => colHasData data header_row table_end c)).getD 0

/-- Right trimming loop of `find_table_boundaries` lines 126-138: first
column from the right with data; `end_col` keeps its initial value
`cols - 1` when no column has data. -/
def findEndCol (data : List (List Cell)) (cols header_row table_end : Nat) : Nat :=
  ((List.range cols).reverse.find? (fun c => colHasData data header_row table_end c)).getD
    (cols - 1)

/-- The header scan of `find_table_boundaries`
(`event_trigger/table_extractor.py`, lines 78-87): first row whose non-empty
count over the padded row reaches `value_threshold = 0.8` of `cols`. -/
def findHeaderRowB (data : List (List Cell)) (cols : Nat) : Option Nat :=
  findIdxFrom (fun row => decide (4 * cols ≤ 5 * countNonEmptyF (padRow row cols))) data 0

/-- The end scan of `find_table_boundaries`
(`event_trigger/table_extractor.py`, lines 92-106): `table_end` is
`i - 1` for the first row index `i` after the header whose non-empty
fraction falls strictly below `empty_threshold = 0.3`, and the last grid row
otherwise. -/
def findTableEndB (data : List (List Cell)) (cols header_row : Nat) : Nat :=
  match findIdxFrom
      (fun row => decide (10 * countNonEmptyF (padRow row cols) < 3 * cols))
      (data.drop (header_row + 1)) (header_row + 1) with
  | some i => i - 1
  | none => data.length - 1

/-- Embedding of `ExcelTableExtractor.find_table_boundaries`
(`event_trigger/table_extractor.py`, lines 61-140) at the constructor
defaults `value_threshold = 0.8`, `empty_threshold = 0.3` used by the
deployed `ExcelTableExtractor()` instance.  Header rows are padded with
`None` to `cols` before counting; the end scan stops at the first row whose
non-empty fraction falls strictly below `0.3`; there is no strictness check
between `header_row` and `table_end`. -/
def find_table_boundaries (data : List (List Cell)) : Option (Nat × Nat × Nat × Nat) :=
  match data with
  | [] => none
  | _ :: _ =>
    let cols := maxRowLen data
    if cols = 0 then none else
    match findHeaderRowB data cols with
    | none => none
    | some header_row =>
      let table_end := findTableEndB data cols header_row
      some (header_row, table_end,
        findStartCol data cols header_row table_end,
        findEndCol data cols header_row table_end)

/-- Embedding of `ExcelTableExtractor.extract_table_data`
(`event_trigger/table_extractor.py`, lines 142-158): for each row index of
`range(start_row, end_row + 1)` that is inside the grid, pad the row with
`None` up to `end_col + 1` cells when needed and slice `[start_col, end_col]`.
Rows are never dropped for being short; only indices beyond the grid are
skipped. -/
def extract_table_data (data : List (List Cell))
    (boundaries : Nat × Nat × Nat × Nat) : List (List Cell) :=
  match boundaries with
  | (start_row, end_row, start_col, end_col) =>
    ((List.range' start_row (end_row + 1 - start_row)).filter
        (fun ri => decide (ri < data.length))).map
      (fun ri =>
        let row := data.getD ri []
        let row :=
          if row.length ≤ end_col then
            row ++ List.replicate (end_col + 1 - row.length) Cell.absent
          else row
        (row.drop start_col).take (end_col + 1 - start_col))

/-- Embedding of `ExcelTableExtractor.add_group_column`
(`event_trigger/table_extractor.py`, lines 160-189).  The Python function
mutates the lists passed to it in place and returns the same object; the
embedding returns the new contents, which equal both the returned value and
the post-call contents of the caller argument.  Control flow collapse: both
branches of the header test append `"Group"` to `table_data[0]` whenever
`table_data` is non-empty, and the loop start `1 if ... any(...) else 0` is
re-evaluated after that append, when `table_data[0]` already ends with the
non-empty cell `"Group"`, so the loop always starts at 1. -/
def add_group_column (table_data : List (List Cell)) (group_id : String) :
    List (List Cell) :=
  match table_data with
  | [] => []
  | r0 :: rest =>
    (r0 ++ [Cell.text "Group"]) :: rest.map (fun r => r ++ [Cell.text group_id])

/-- Per-sheet slice of `ExcelTableExtractor.process_excel_content`
(`event_trigger/table_extractor.py`, lines 230-259): skip the sheet when the
sheet data is empty, when no boundaries are found, or when the extracted
table is empty; otherwise return the extracted table with the Group column
appended — unconditionally, whatever `group_id` is. -/
def process_sheet_tables (sheet_data : List (List Cell)) (group_id : String) :
    Option (List (List Cell)) :=
  if sheet_data.isEmpty then none else
  match find_table_boundaries sheet_data with
  | none => none
  | some boundaries =>
    let table_data := extract_table_data sheet_data boundaries
    if table_data.isEmpty then none else
    some (add_group_column table_data group_id)

/-- A pandas DataFrame as used by `Updated.py`: column labels plus rows. -/
structure DataFrame where
  columns : List String
  rows : List (List Cell)
deriving DecidableEq

/-- Embedding of `transform_dataframe` (`Updated.py`, lines 156-161): strip
all column labels, then add a `source_file` column holding the file name and
a `source_sheet` column holding the sheet name on every row.  The Python
function mutates the frame passed to it and returns the same object; the
embedding returns the new contents, which equal the post-call contents of
the caller argument. -/
def transform_dataframe (df : DataFrame) (sheet_name : String) (filename : String) :
    DataFrame :=
  { columns := df.columns.map pyStrip ++ ["source_file", "source_sheet"],
    rows := df.rows.map (fun r => r ++ [Cell.text filename, Cell.text sheet_name]) }

example :
    extract_table_data [[Cell.text "x"]] (0, 0, 0, 2) =
      [[Cell.text "x", Cell.absent, Cell.absent]] := by decide

example : find_table_boundaries gridScenario = some (1, 3, 0, 2) := by decide

/-- Spec-side cell emptiness, following the spec, section 3: a cell is empty
iff its value is absent or its string representation, after trimming leading
and trailing whitespace, is the empty string. -/
def specCellEmpty (c : Cell) : Bool :=
  match c with
  | Cell.absent => true
  | c => decide (pyStrip c.pyStr = "")

/-- Spec-side non-empty cell count of a row, using `specCellEmpty`. -/
def specNonEmptyCount (row : List Cell) : Nat :=
  (row.filter (fun c => ! specCellEmpty c)).length

theorem pyCellNonEmptyF_eq_not_specCellEmpty (c : Cell) :
    pyCellNonEmptyF c = ! specCellEmpty c := by
  cases c <;> simp [pyCellNonEmptyF, specCellEmpty, decide_not]

theorem countNonEmptyF_eq_spec (row : List Cell) :
    countNonEmptyF row = specNonEmptyCount row := by
  unfold countNonEmptyF specNonEmptyCount
  rw [show pyCellNonEmptyF = fun c => ! specCellEmpty c from
    funext pyCellNonEmptyF_eq_not_specCellEmpty]

/-- Scan characterization: `findIdxFrom` starting at `s` returns `s + k`
exactly when position `k` is the first position of the list whose element
satisfies the predicate. -/
theorem findIdxFrom_some_iff {α : Type} (p : α → Bool) (l : List α) (s j : Nat) :
    findIdxFrom p l s = some j ↔
      ∃ k, j = s + k ∧ (∃ a, l.get? k = some a ∧ p a = true) ∧
        ∀ m a, m < k → l.get? m = some a → p a = false := by
  induction l generalizing s with
  | nil => simp [findIdxFrom]
  | cons x xs ih =>
    simp only [findIdxFrom]
    by_cases hx : p x = true
    · simp only [hx, if_true]
      constructor
      · intro h
        injection h with h
        exact ⟨0, by omega, ⟨x, rfl, hx⟩, by omega⟩
      · rintro ⟨k, hk, ⟨a, ha, hpa⟩, hmin⟩
        cases k with
        | zero =>
          injection ha with ha
          subst ha
          exact congrArg some (by omega)
        | succ k =>
          exact absurd hx (by simpa using hmin 0 x (Nat.succ_pos k) rfl)
    · simp only [if_neg hx, ih]
      constructor
      · rintro ⟨k, hk, ⟨a, ha, hpa⟩, hmin⟩
        refine ⟨k + 1, by omega, ⟨a, by simpa using ha, hpa⟩, ?_⟩
        intro m b hm hb
        cases m with
        | zero =>
          injection hb with hb
          subst hb
          simpa using hx
        | succ m => exact hmin m b (by omega) (by simpa using hb)
      · rintro ⟨k, hk, ⟨a, ha, hpa⟩, hmin⟩
        cases k with
        | zero =>
          injection ha with ha
          subst ha
          exact absurd hpa hx
        | succ k =>
          refine ⟨k, by omega, ⟨a, by simpa using ha, hpa⟩, ?_⟩
          intro m b hm hb
          exact hmin (m + 1) b (by omega) (by simpa using hb)

theorem findIdxFrom_none_iff {α : Type} (p : α → Bool) (l : List α) (s : Nat) :
    findIdxFrom p l s = none ↔ ∀ a ∈ l, p a = false := by
  induction l generalizing s with
  | nil => simp [findIdxFrom]
  | cons x xs ih =>
    simp only [findIdxFrom]
    by_cases hx : p x = true
    · simp [hx]
    · simp only [if_neg hx, ih]
      constructor
      · intro h a ha
        rcases List.mem_cons.mp ha with rfl | ha
        · exact Bool.eq_false_iff.mpr hx
        · exact h a ha
      · intro h a ha
        exact h a (List.mem_cons_of_mem x ha)

theorem findIdxFrom_some_le {α : Type} {p : α → Bool} {l : List α} {s j : Nat}
    (h : findIdxFrom p l s = some j) : s ≤ j := by
  rw [findIdxFrom_some_iff] at h
  obtain ⟨k, rfl, -, -⟩ := h
  omega

theorem findIdxFrom_some_lt {α : Type} {p : α → Bool} {l : List α} {s j : Nat}
    (h : findIdxFrom p l s = some j) : j < s + l.length := by
  rw [findIdxFrom_some_iff] at h
  obtain ⟨k, rfl, ⟨a, ha, -⟩, -⟩ := h
  have hk : k < l.length := List.get?_eq_some.mp ha |>.1
  omega

theorem maxRowLen_eq_zero {data : List (List Cell)}
    (h : ∀ r ∈ data, r = []) : maxRowLen data = 0 := by
  induction data with
  | nil => rfl
  | cons r rest ih =>
    have hr := h r (List.mem_cons_self r rest)
    rw [maxRowLen, hr, ih (fun r2 hr2 => h r2 (List.mem_cons_of_mem _ hr2))]
    rfl

theorem findHeaderRowB_lt {data : List (List Cell)} {cols j : Nat}
    (h : findHeaderRowB data cols = some j) : j < data.length := by
  unfold findHeaderRowB at h
  simpa using findIdxFrom_some_lt h

theorem mapMOpt_length {α β : Type} (f : α → Option β) (l : List α) (ys : List β)
    (h : mapMOpt f l = some ys) : ys.length = l.length := by
  induction l generalizing ys with
  | nil =>
    simp only [mapMOpt] at h
    injection h with h
    subst h
    rfl
  | cons a as ih =>
    simp only [mapMOpt] at h
    cases hfa : f a with
    | none => rw [hfa] at h; exact absurd h (by simp)
    | some b =>
      cases hrec : mapMOpt f as with
      | none => rw [hfa, hrec] at h; exact absurd h (by simp)
      | some bs =>
        rw [hfa, hrec] at h
        injection h with h
        subst h
        simp [ih bs hrec]

/-- First-position characterization for scans that start at index 0, stated
at the proposition level for a decidable row predicate. -/
theorem findIdxFrom_zero_first {α : Type} (q : α → Prop) [DecidablePred q]
    (l : List α) (j : Nat) :
    findIdxFrom (fun a => decide (q a)) l 0 = some j ↔
      (∃ a, l.get? j = some a ∧ q a) ∧
        ∀ m a, m < j → l.get? m = some a → ¬ q a := by
  rw [findIdxFrom_some_iff]
  constructor
  · rintro ⟨k, hk, ⟨a, ha, hpa⟩, hmin⟩
    have hkj : k = j := by omega
    subst hkj
    exact ⟨⟨a, ha, of_decide_eq_true hpa⟩,
      fun m b hm hb => of_decide_eq_false (hmin m b hm hb)⟩
  · rintro ⟨⟨a, ha, hqa⟩, hmin⟩
    exact ⟨j, by omega, ⟨a, ha, decide_eq_true hqa⟩,
      fun m b hm hb => decide_eq_false (hmin m b hm hb)⟩

/-- C6 (confirmed): on the grid of the end-to-end scenario, processed by
`detect_table_from_rows` of `Updated.py` (value threshold 0.8, strict
complement end policy: empty fraction at least 0.8 ends the table), the
located header row is index 1, the end row is index 3, the full width 0..2
is used, and the materialized table has headers `ID`, `Name`, `Qty` and
exactly the data rows of indices 2 and 3; the row at index 5 is excluded. -/
theorem c6_end_to_end_scenario :
    detect_table_from_rows gridScenario =
      DetectResult.table
        ⟨["ID", "Name", "Qty"],
         [[Cell.text "1", Cell.text "A", Cell.text "5"],
          [Cell.text "2", Cell.text "B", Cell.text "3"]]⟩
  ∧ findHeaderRowU gridScenario 3 = some 1
  ∧ findEndRowU gridScenario 3 1 = 3 := by decide

/-- C7 (confirmed): `extract_group_id` splits the file name on underscores
and returns the part at index 1 when there are at least two parts, and the
empty string otherwise; `report_TEAM7_2024.xlsx` gives `TEAM7`,
`report.xlsx` gives the empty string. -/
theorem c7_group_id_extraction :
    (∀ s p0 p1 rest, pySplit s '_' = p0 :: p1 :: rest → extract_group_id s = p1)
  ∧ (∀ s, (pySplit s '_').length < 2 → extract_group_id s = "")
  ∧ extract_group_id "report_TEAM7_2024.xlsx" = "TEAM7"
  ∧ extract_group_id "report.xlsx" = "" := by
  refine ⟨?_, ?_, by decide, by decide⟩
  · intro s p0 p1 rest h
    unfold extract_group_id
    rw [h]
    simp
  · intro s h
    unfold extract_group_id
    rw [if_neg (by omega)]

/-- Witness for C7 at concrete inputs. -/
theorem c7_group_id_extraction_witness :
    extract_group_id "a_b" = "b" ∧ extract_group_id "c" = "" :=
  ⟨c7_group_id_extraction.1 "a_b" "a" "b" [] (by decide),
   c7_group_id_extraction.2.1 "c" (by decide)⟩

/-- C10 (confirmed): group-identifier extraction operates on the full file
name, extension included — the caller in `event_trigger/function_app.py`
passes `os.path.basename(blob_name)` without stripping the extension — so a
name splitting into exactly two parts returns the whole second part,
extension and all: `report_TEAM7.xlsx` gives `TEAM7.xlsx`, not `TEAM7`. -/
theorem c10_group_id_keeps_extension :
    (∀ s p0 p1, pySplit s '_' = [p0, p1] → extract_group_id s = p1)
  ∧ extract_group_id "report_TEAM7.xlsx" = "TEAM7.xlsx"
  ∧ extract_group_id "report_TEAM7.xlsx" ≠ "TEAM7" := by
  refine ⟨?_, by decide, by decide⟩
  · intro s p0 p1 h
    unfold extract_group_id
    rw [h]
    simp

/-- Witness for C10 at a concrete input. -/
theorem c10_group_id_keeps_extension_witness :
    extract_group_id "x_y.z" = "y.z" :=
  c10_group_id_keeps_extension.1 "x_y.z" "x" "y.z" (by decide)

/-- C9 (confirmed): whenever the event-trigger pipeline extracts a table
from a sheet, the Group column is appended unconditionally: the header row
gains a trailing Group cell and every data row gains a trailing cell holding
the group identifier — even when that identifier is the empty string, which
is emitted, never omitted. -/
theorem c9_group_column_unconditional :
    ∀ (data : List (List Cell)) (gid : String) (out : List (List Cell)),
      process_sheet_tables data gid = some out →
      ∃ (r0 : List Cell) (rest : List (List Cell)),
        out = (r0 ++ [Cell.text "Group"]) :: rest.map (fun r => r ++ [Cell.text gid]) := by
  intro data gid out h
  simp only [process_sheet_tables] at h
  by_cases hne : data.isEmpty = true
  · rw [if_pos hne] at h
    exact absurd h (by simp)
  · rw [if_neg hne] at h
    cases hb : find_table_boundaries data with
    | none => rw [hb] at h; exact absurd h (by simp)
    | some b =>
      rw [hb] at h
      dsimp only at h
      by_cases htd : (extract_table_data data b).isEmpty = true
      · rw [if_pos htd] at h
        exact absurd h (by simp)
      · rw [if_neg htd] at h
        injection h with h
        cases hx : extract_table_data data b with
        | nil => rw [hx] at htd; simp at htd
        | cons r0 rest =>
          rw [hx] at h
          exact ⟨r0, rest, by rw [← h]; rfl⟩

/-- Witness for C9: the scenario grid with the empty group identifier. -/
theorem c9_group_column_unconditional_witness :
    ∃ (r0 : List Cell) (rest : List (List Cell)),
      [[Cell.text "ID", Cell.text "Name", Cell.text "Qty", Cell.text "Group"],
       [Cell.text "1", Cell.text "A", Cell.text "5", Cell.text ""],
       [Cell.text "2", Cell.text "B", Cell.text "3", Cell.text ""]] =
        (r0 ++ [Cell.text "Group"]) :: rest.map (fun r => r ++ [Cell.text ""]) :=
  c9_group_column_unconditional gridScenario "" _ (by decide)

/-- C1 counterexample: on the grid with an absent first-row cell and a
one-cell second row, the claimed emptiness rule (absent counts as empty)
gives the first row a non-empty fraction of 0, below the 0.8 threshold —
so the claim predicts header row 1 and then NotFound (no data rows below).
But `detect_table_from_rows` selects row 0 as header, because
`str(None).strip() = "None"` is non-empty under its test, and returns a
table.  The first conjunct shows the selected header row, the second that
this row fails the claimed threshold test, the third that row 1 passes it,
and the fourth the observable divergence. -/
theorem c1_header_emptiness_counterexample :
    findHeaderRowU [[Cell.absent], [Cell.text "x"]] 1 = some 0
  ∧ ¬ 4 * 1 ≤ 5 * specNonEmptyCount [Cell.absent]
  ∧ 4 * 1 ≤ 5 * specNonEmptyCount [Cell.text "x"]
  ∧ detect_table_from_rows [[Cell.absent], [Cell.text "x"]] =
      DetectResult.table ⟨["Column_1"], [[Cell.text "x"]]⟩ := by decide

/-- C1 (corrected): the header scan of `detect_table_in_worksheet`
(`function_app.py`) returns exactly the first row index whose non-empty
fraction, under the claimed emptiness (absent, or stripping to the empty
string), reaches the 0.8 threshold over the column count, and `none` when no
row qualifies; padding a row with empty cells does not change its non-empty
count, so counting over the raw row equals counting over the padded row.
The header scan of `detect_table_from_rows` (`Updated.py`) obeys the same
first-qualifying-row rule but under a different emptiness: a cell is empty
iff its Python string representation strips to the empty string, so an
absent cell (rendered `None`) counts as non-empty there. -/
theorem c1_locate_header_first_qualifying
    (rows : List (List Cell)) (row : List Cell) (num_cols j k : Nat) :
    (findHeaderRowF rows num_cols = some j ↔
      (∃ r, rows.get? j = some r ∧ 4 * num_cols ≤ 5 * specNonEmptyCount r) ∧
        ∀ m r, m < j → rows.get? m = some r → ¬ 4 * num_cols ≤ 5 * specNonEmptyCount r)
  ∧ (findHeaderRowF rows num_cols = none ↔
      ∀ r ∈ rows, ¬ 4 * num_cols ≤ 5 * specNonEmptyCount r)
  ∧ specNonEmptyCount (row ++ List.replicate k Cell.absent) = specNonEmptyCount row
  ∧ (findHeaderRowU rows num_cols = some j ↔
      (∃ r, rows.get? j = some r ∧ 4 * num_cols ≤ 5 * countNonEmptyU r) ∧
        ∀ m r, m < j → rows.get? m = some r → ¬ 4 * num_cols ≤ 5 * countNonEmptyU r)
  ∧ pyCellNonEmptyU Cell.absent = true ∧ specCellEmpty Cell.absent = true := by
  refine ⟨?_, ?_, ?_, ?_, by decide, by decide⟩
  · unfold findHeaderRowF
    rw [findIdxFrom_zero_first (fun r => 4 * num_cols ≤ 5 * countNonEmptyF r)]
    simp only [countNonEmptyF_eq_spec]
  · unfold findHeaderRowF
    rw [findIdxFrom_none_iff]
    simp only [countNonEmptyF_eq_spec, decide_eq_false_iff_not]
  · have hrep : (List.replicate k Cell.absent).filter (fun c => ! specCellEmpty c) = [] := by
      rw [List.filter_eq_nil_iff]
      intro a ha
      rw [List.eq_of_mem_replicate ha]
      decide
    simp [specNonEmptyCount, List.filter_append, hrep]
  · unfold findHeaderRowU
    exact findIdxFrom_zero_first (fun r => 4 * num_cols ≤ 5 * countNonEmptyU r) rows j

/-- Witness for C1: the characterization applied to the counterexample grid,
showing that the `function_app.py` scan selects row 1 there. -/
theorem c1_locate_header_first_qualifying_witness :
    (∃ r, [[Cell.absent], [Cell.text "x"]].get? 1 = some r ∧
        4 * 1 ≤ 5 * specNonEmptyCount r) ∧
      ∀ m r, m < 1 → [[Cell.absent], [Cell.text "x"]].get? m = some r →
        ¬ 4 * 1 ≤ 5 * specNonEmptyCount r :=
  (c1_locate_header_first_qualifying [[Cell.absent], [Cell.text "x"]] [] 1 1 0).1.mp
    (by decide)

/-- C2 counterexample: `find_table_boundaries` on a single-row grid returns
bounds whose header row equals its end row — a table of zero data rows —
instead of NotFound. -/
theorem c2_zero_data_rows_counterexample :
    find_table_boundaries [[Cell.text "a"]] = some (0, 0, 0, 0) ∧ ¬ (0 : Nat) < 0 := by
  exact ⟨by decide, by decide⟩

/-- C2 (corrected): `detect_table_from_rows` and `detect_table_in_worksheet`
return NotFound when the end boundary is not strictly greater than the
header row, so any table they return has at least one data row; but
`find_table_boundaries` performs no such check and can return bounds with
`header_row = end_row` (zero data rows) — its bounds only satisfy
`header_row ≤ end_row`. -/
theorem c2_bounds_order_and_nonempty_data :
    (∀ data h e sc ec, find_table_boundaries data = some (h, e, sc, ec) → h ≤ e)
  ∧ (∀ rows t, detect_table_from_rows rows = DetectResult.table t → t.data ≠ [])
  ∧ (∀ rows t, detect_table_in_worksheet rows = DetectResult.table t → t.data ≠ []) := by
  refine ⟨?_, ?_, ?_⟩
  · intro data h e sc ec hfb
    cases data with
    | nil => simp [find_table_boundaries] at hfb
    | cons d0 ds =>
      simp only [find_table_boundaries] at hfb
      by_cases hc : maxRowLen (d0 :: ds) = 0
      · rw [if_pos hc] at hfb
        exact absurd hfb (by simp)
      · rw [if_neg hc] at hfb
        cases hheader : findHeaderRowB (d0 :: ds) (maxRowLen (d0 :: ds)) with
        | none => rw [hheader] at hfb; exact absurd hfb (by simp)
        | some header_row =>
          rw [hheader] at hfb
          dsimp only at hfb
          simp only [Option.some.injEq, Prod.mk.injEq] at hfb
          obtain ⟨hfb1, hfb2, -, -⟩ := hfb
          subst hfb1
          subst hfb2
          have hlt : header_row < (d0 :: ds).length := findHeaderRowB_lt hheader
          unfold findTableEndB
          split
          · rename_i i hi
            have := findIdxFrom_some_le hi
            omega
          · simp only [List.length_cons]
            simp only [List.length_cons] at hlt
            omega
  · intro rows t hd
    cases rows with
    | nil => simp [detect_table_from_rows] at hd
    | cons r0 rs =>
      simp only [detect_table_from_rows] at hd
      split at hd
      · exact absurd hd (by simp)
      · split at hd
        · exact absurd hd (by simp)
        · rename_i header_row hheader
          split at hd
          · exact absurd hd (by simp)
          · rename_i hend
            split at hd
            · exact absurd hd (by simp)
            · rename_i headers hheaders
              split at hd
              · exact absurd hd (by simp)
              · rename_i dataRows hdata
                injection hd with hd
                subst hd
                have hlen := mapMOpt_length _ _ _ hdata
                rw [List.length_range'] at hlen
                intro hnil
                have hz : dataRows = [] := hnil
                rw [hz] at hlen
                simp only [List.length_nil] at hlen
                omega
  · intro rows t hd
    cases rows with
    | nil => simp [detect_table_in_worksheet] at hd
    | cons r0 rs =>
      simp only [detect_table_in_worksheet] at hd
      split at hd
      · exact absurd hd (by simp)
      · split at hd
        · exact absurd hd (by simp)
        · rename_i header_row hheader
          split at hd
          · exact absurd hd (by simp)
          · rename_i hend
            split at hd
            · exact absurd hd (by simp)
            · rename_i headers hheaders
              split at hd
              · exact absurd hd (by simp)
              · rename_i dataRows hdata
                injection hd with hd
                subst hd
                have hlen := mapMOpt_length _ _ _ hdata
                rw [List.length_range'] at hlen
                intro hnil
                have hz : dataRows = [] := hnil
                rw [hz] at hlen
                simp only [List.length_nil] at hlen
                omega

/-- Witness for C2 at concrete inputs: bounds of the one-cell grid, and the
non-empty data lists of the two detectors on concrete grids. -/
theorem c2_bounds_order_and_nonempty_data_witness :
    (0 : Nat) ≤ 0
  ∧ ([[Cell.text "1", Cell.text "A", Cell.text "5"],
      [Cell.text "2", Cell.text "B", Cell.text "3"]] : List (List Cell)) ≠ []
  ∧ ([[Cell.text "x"]] : List (List Cell)) ≠ [] :=
  ⟨c2_bounds_order_and_nonempty_data.1 [[Cell.text "a"]] 0 0 0 0 (by decide),
   c2_bounds_order_and_nonempty_data.2.1 gridScenario
     ⟨["ID", "Name", "Qty"],
      [[Cell.text "1", Cell.text "A", Cell.text "5"],
       [Cell.text "2", Cell.text "B", Cell.text "3"]]⟩ (by decide),
   c2_bounds_order_and_nonempty_data.2.2 [[Cell.text "a"], [Cell.text "x"]]
     ⟨["a"], [[Cell.text "x"]]⟩ (by decide)⟩

/-- C3 counterexample: `detect_table_from_rows` of `Updated.py` reads data
rows positionally across the full column count without padding, so its
materialization is not total on ragged grids: the data row with a single
cell inside a 3-column grid raises `IndexError` instead of materializing to
a padded row. -/
theorem c3_ragged_materialization_counterexample :
    detect_table_from_rows
      [[Cell.text "a", Cell.text "b", Cell.text "c"], [Cell.text "x"]] =
      DetectResult.indexError := by decide

/-- C3 (corrected): the event-trigger materializer `extract_table_data` is
total and pads: every materialized row inside bounds with
`start_col ≤ end_col` has exactly `end_col + 1 - start_col` cells, short rows
being right-padded with empty (absent) cells — the one-cell data row inside
3-column bounds materializes to the row padded with two empty cells and is
never dropped; when the end row is inside the grid, exactly the rows of the
located span are materialized.  The materializer of `detect_table_from_rows`
instead raises an index error on data rows shorter than the column count
(see the counterexample). -/
theorem c3_materialization_total_and_padded :
    (∀ data sr er sc ec row, sc ≤ ec →
        row ∈ extract_table_data data (sr, er, sc, ec) →
        row.length = ec + 1 - sc)
  ∧ (∀ data sr er sc ec, er < data.length →
        (extract_table_data data (sr, er, sc, ec)).length = er + 1 - sr)
  ∧ extract_table_data
      [[Cell.text "H1", Cell.text "H2", Cell.text "H3"], [Cell.text "x"]]
      (0, 1, 0, 2) =
      [[Cell.text "H1", Cell.text "H2", Cell.text "H3"],
       [Cell.text "x", Cell.absent, Cell.absent]] := by
  refine ⟨?_, ?_, by decide⟩
  · intro data sr er sc ec row hsc hrow
    simp only [extract_table_data, List.mem_map] at hrow
    obtain ⟨ri, hri, rfl⟩ := hrow
    split
    · rename_i hp
      rw [List.length_take, List.length_drop, List.length_append,
        List.length_replicate]
      omega
    · rename_i hp
      rw [List.length_take, List.length_drop]
      omega
  · intro data sr er sc ec her
    simp only [extract_table_data]
    rw [List.length_map]
    have hall : ∀ ri ∈ List.range' sr (er + 1 - sr),
        decide (ri < data.length) = true := by
      intro ri hri
      have := List.mem_range'_1.mp hri
      simp only [decide_eq_true_eq]
      omega
    rw [List.filter_eq_self.mpr hall, List.length_range']

/-- Witness for C3 at the concrete grid of the claim. -/
theorem c3_materialization_total_and_padded_witness :
    ([Cell.text "x", Cell.absent, Cell.absent] : List Cell).length = 2 + 1 - 0
  ∧ (extract_table_data
       [[Cell.text "H1", Cell.text "H2", Cell.text "H3"], [Cell.text "x"]]
       (0, 1, 0, 2)).length = 1 + 1 - 0 :=
  ⟨c3_materialization_total_and_padded.1
     [[Cell.text "H1", Cell.text "H2", Cell.text "H3"], [Cell.text "x"]]
     0 1 0 2 [Cell.text "x", Cell.absent, Cell.absent] (by decide) (by decide),
   c3_materialization_total_and_padded.2.1
     [[Cell.text "H1", Cell.text "H2", Cell.text "H3"], [Cell.text "x"]]
     0 1 0 2 (by decide)⟩

/-- C4 counterexample: `find_table_boundaries` defines the column count as
the maximum row length, not the first-row length, so a grid whose first row
has zero columns is not treated as empty: it returns bounds locating the
one-cell table in the second row. -/
theorem c4_zero_width_first_row_counterexample :
    find_table_boundaries [[], [Cell.text "a"]] = some (1, 1, 0, 0) := by decide

/-- C4 (corrected): both locate realizations return NotFound on a grid with
zero rows; `detect_table_from_rows`, whose column count is the first-row
length, also returns NotFound whenever the first row has zero columns; but
`find_table_boundaries` takes the maximum row length as column count, so a
zero-length first row alone does not force NotFound there — NotFound
requires every row to have zero length. -/
theorem c4_empty_grid_notfound :
    detect_table_from_rows [] = DetectResult.notFound
  ∧ find_table_boundaries [] = none
  ∧ (∀ r0 rest, r0 = ([] : List Cell) →
      detect_table_from_rows (r0 :: rest) = DetectResult.notFound)
  ∧ (∀ data : List (List Cell), (∀ r ∈ data, r = []) →
      find_table_boundaries data = none) := by
  refine ⟨rfl, rfl, ?_, ?_⟩
  · intro r0 rest h
    subst h
    rfl
  · intro data hall
    cases data with
    | nil => rfl
    | cons d0 ds =>
      have hz : maxRowLen (d0 :: ds) = 0 := maxRowLen_eq_zero hall
      simp [find_table_boundaries, hz]

/-- Witness for C4 at concrete grids: a zero-length first row followed by a
non-empty row for the Updated detector, and an all-zero-length grid for the
event-trigger boundaries. -/
theorem c4_empty_grid_notfound_witness :
    detect_table_from_rows [[], [Cell.text "a"]] = DetectResult.notFound
  ∧ find_table_boundaries [[], []] = none :=
  ⟨c4_empty_grid_notfound.2.2.1 [] [[Cell.text "a"]] rfl,
   c4_empty_grid_notfound.2.2.2 [[], []] (by decide)⟩

/-- C5 counterexample: `detect_table_in_worksheet` replaces a header cell by
the synthetic label only when the cell is absent (`None`): an empty-string
header cell — whose stringified, trimmed form is empty, so the claim demands
`Column_5` — is kept as the empty string. -/
theorem c5_header_synthesis_counterexample :
    detect_table_in_worksheet
      [[Cell.text "A", Cell.text "B", Cell.text "C", Cell.text "D", Cell.text ""],
       [Cell.text "1", Cell.text "2", Cell.text "3", Cell.text "4", Cell.text "5"]] =
      DetectResult.table
        ⟨["A", "B", "C", "D", ""],
         [[Cell.text "1", Cell.text "2", Cell.text "3", Cell.text "4", Cell.text "5"]]⟩
  ∧ "" ≠ "Column_5" := by decide

/-- C5 (corrected): header cells are stringified but not trimmed at
materialization (trimming of column labels happens later, in
`transform_dataframe`).  `detect_table_from_rows` replaces a header cell by
`Column_<k>` exactly when the cell is Python-falsy — so the claimed
example row with an empty-string cell does yield `Column_2` there, but a
whitespace-only header cell is kept verbatim (although its trimmed form is
empty) and a numeric zero cell is replaced (although its trimmed form is the
non-empty string `0`).  `detect_table_in_worksheet` replaces a header cell
only when it is absent, keeping empty-string headers (see the
counterexample), and replacing absent ones. -/
theorem c5_header_synthesis_rules :
    detect_table_from_rows
      [[Cell.text "A", Cell.text "B", Cell.text "C", Cell.text "D", Cell.text " "],
       [Cell.text "1", Cell.text "2", Cell.text "3", Cell.text "4", Cell.text "5"]] =
      DetectResult.table
        ⟨["A", "B", "C", "D", " "],
         [[Cell.text "1", Cell.text "2", Cell.text "3", Cell.text "4", Cell.text "5"]]⟩
  ∧ detect_table_from_rows
      [[Cell.num 0, Cell.text "B", Cell.text "C", Cell.text "D", Cell.text "E"],
       [Cell.text "1", Cell.text "2", Cell.text "3", Cell.text "4", Cell.text "5"]] =
      DetectResult.table
        ⟨["Column_1", "B", "C", "D", "E"],
         [[Cell.text "1", Cell.text "2", Cell.text "3", Cell.text "4", Cell.text "5"]]⟩
  ∧ buildHeadersU [Cell.text "Name", Cell.text "", Cell.text "Age"] 3 =
      some ["Name", "Column_2", "Age"]
  ∧ buildHeadersF [Cell.absent, Cell.text "x"] 2 = some ["Column_1", "x"] := by decide

/-- C8 counterexample: after the enrichment call, the contents of the list
the caller passed in (modelled by the returned value, since
`add_group_column` mutates its argument in place and returns the same
object) differ from the contents before the call. -/
theorem c8_enrichment_mutation_counterexample :
    add_group_column [[Cell.text "h"], [Cell.text "1"]] "G" ≠
      [[Cell.text "h"], [Cell.text "1"]] := by decide

/-- C8 (corrected): enrichment does not return an unchanged-input fresh
structure — it mutates the caller data in place and returns the same object:
for every non-empty table the post-call contents of the table passed to
`add_group_column` differ from the pre-call contents (each row gains exactly
one trailing cell), and likewise `transform_dataframe` never leaves the
frame equal to its input (two provenance columns are added). -/
theorem c8_enrichment_mutates_in_place :
    (∀ (td : List (List Cell)) (gid : String), td ≠ [] → add_group_column td gid ≠ td)
  ∧ (∀ (df : DataFrame) (sn fn : String), transform_dataframe df sn fn ≠ df)
  ∧ (∀ (td : List (List Cell)) (gid : String) (i : Nat) (r r2 : List Cell),
      td.get? i = some r → (add_group_column td gid).get? i = some r2 →
      r2.length = r.length + 1) := by
  refine ⟨?_, ?_, ?_⟩
  · intro td gid hne he
    cases td with
    | nil => exact hne rfl
    | cons r0 rest =>
      simp only [add_group_column, List.cons.injEq] at he
      have := congrArg List.length he.1
      simp only [List.length_append, List.length_cons, List.length_nil] at this
      omega
  · intro df sn fn he
    have := congrArg (fun d => d.columns.length) he
    simp only [transform_dataframe, List.length_append, List.length_map,
      List.length_cons, List.length_nil] at this
    omega
  · intro td gid i r r2 hr hr2
    cases td with
    | nil => simp at hr
    | cons r0 rest =>
      cases i with
      | zero =>
        simp only [List.get?_cons_zero, Option.some.injEq] at hr
        simp only [add_group_column, List.get?_cons_zero, Option.some.injEq] at hr2
        subst hr
        subst hr2
        simp
      | succ i =>
        simp only [List.get?_cons_succ] at hr
        simp only [add_group_column, List.get?_cons_succ, List.get?_map] at hr2
        rw [hr] at hr2
        simp only [Option.map_some', Option.some.injEq] at hr2
        subst hr2
        simp

/-- Witness for C8 at concrete inputs. -/
theorem c8_enrichment_mutates_in_place_witness :
    add_group_column [[Cell.text "h"]] "G" ≠ [[Cell.text "h"]]
  ∧ transform_dataframe ⟨["a"], []⟩ "s" "f" ≠ ⟨["a"], []⟩
  ∧ ([Cell.text "1", Cell.text "G"] : List Cell).length =
      ([Cell.text "1"] : List Cell).length + 1 :=
  ⟨c8_enrichment_mutates_in_place.1 [[Cell.text "h"]] "G" (by decide),
   c8_enrichment_mutates_in_place.2.1 ⟨["a"], []⟩ "s" "f",
   c8_enrichment_mutates_in_place.2.2 [[Cell.text "h"], [Cell.text "1"]] "G" 1
     [Cell.text "1"] [Cell.text "1", Cell.text "G"] (by decide) (by decide)⟩
